import Mathlib

/-!
Verification development for the GitHub repository intelligence scanner
(`repo_analyzer.py`).  The analyzer pipeline is shallowly embedded: Python
dictionaries / JSON values become the inductive type `Json`, fallible Python
operations (attribute access on a non-dict, `TypeError` on subtraction, …)
become `Except PyFault`, and the network boundary (GitHub fetch, Groq chat
completion) is abstracted as explicit inputs.  Character-class predicates
(`str.strip`, regex `\s`, `str.lower`, `str.isupper`) are modelled over the
ASCII range, which covers every string the analyzer itself constructs.
-/

/-- Kinds of uncaught Python faults the analyzer can raise.  A value
`.error f` of `Except PyFault _` models an exception escaping the function,
as opposed to an error *dictionary* being returned to the caller. -/
inductive PyFault where
  | typeError
  | attributeError
  | keyError
deriving DecidableEq

/-- Python/JSON values as handled by the analyzer: the result of
`json.loads`, the dictionaries built by the analyzer, and the values stored
in them.  Numbers are modelled exactly as rationals (JSON numerals are
decimal; the binary-float rounding of CPython is outside the model and
irrelevant to the integral scores the analyzer manipulates). -/
inductive Json where
  | null
  | bool (b : Bool)
  | num (q : ℚ)
  | str (s : String)
  | arr (elems : List Json)
  | obj (fields : List (String × Json))

/-- First value bound to `key`, as in a Python dict lookup (the parser below
keeps keys unique, mirroring dict construction). -/
def lookupKey : List (String × Json) → String → Option Json
  | [], _ => none
  | (k, v) :: rest, key => if k == key then some v else lookupKey rest key

/-- Python dict assignment `d[k] = v`: overwrite in place if the key exists
(keeping its position, as CPython dicts do), else append. -/
def objInsert : List (String × Json) → String → Json → List (String × Json)
  | [], k, v => [(k, v)]
  | (k1, v1) :: rest, k, v =>
    if k1 == k then (k1, v) :: rest else (k1, v1) :: objInsert rest k v

/-- Python `x.get(key, dflt)`: defaulting lookup on a dict; on any non-dict
the attribute `get` does not exist and an `AttributeError` is raised. -/
def pyGet (j : Json) (key : String) (dflt : Json) : Except PyFault Json :=
  match j with
  | .obj kvs => .ok ((lookupKey kvs key).getD dflt)
  | _ => .error .attributeError

/-- Python `x[key]` with a string key: `KeyError` on a dict without the key,
`TypeError` on values that are not string-subscriptable. -/
def pyIndex (j : Json) (key : String) : Except PyFault Json :=
  match j with
  | .obj kvs =>
    match lookupKey kvs key with
    | some v => .ok v
    | none => .error .keyError
  | _ => .error .typeError

/-- Bool test: is `needle` a contiguous substring of `hay` (Python `in` on
strings; the empty needle is always contained). -/
def substrIn : List Char → List Char → Bool
  | needle, [] => needle.isEmpty
  | needle, c :: t => needle.isPrefixOf (c :: t) || substrIn needle t

/-- Python `needle in x` for a string needle: key test on dicts, membership
on lists (only string elements can equal a string), substring test on
strings, `TypeError` otherwise. -/
def pyIn (needle : String) : Json → Except PyFault Bool
  | .obj kvs => .ok (kvs.any (fun kv => kv.1 == needle))
  | .arr xs => .ok (xs.any (fun x => match x with | .str s => s == needle | _ => false))
  | .str s => .ok (substrIn needle.toList s.toList)
  | _ => .error .typeError

/-- Python truthiness of a value. -/
def pyTruthy : Json → Bool
  | .null => false
  | .bool b => b
  | .num q => !(q == 0)
  | .str s => !s.isEmpty
  | .arr xs => !xs.isEmpty
  | .obj kvs => !kvs.isEmpty

/-- Python iteration over a value, collected into a list (used by
`list.extend` and `for` loops): lists yield their elements, strings their
characters, dicts their keys; other values raise `TypeError`. -/
def pyToList : Json → Except PyFault (List Json)
  | .arr xs => .ok xs
  | .str s => .ok (s.toList.map (fun c => Json.str (String.mk [c])))
  | .obj kvs => .ok (kvs.map (fun kv => Json.str kv.1))
  | _ => .error .typeError

/-- Python `len`. -/
def pyLen : Json → Except PyFault Nat
  | .arr xs => .ok xs.length
  | .str s => .ok s.length
  | .obj kvs => .ok kvs.length
  | _ => .error .typeError

/-- Numeric view of a value for arithmetic: numbers are themselves and
booleans coerce (`True` is `1`), everything else is not a number. -/
def toPyNum : Json → Option ℚ
  | .num q => some q
  | .bool b => some (if b then 1 else 0)
  | _ => none

/-- Python subtraction `a - b` on analyzer values: defined on numbers
(and booleans), `TypeError` otherwise. -/
def pySub (a b : Json) : Except PyFault ℚ :=
  match toPyNum a, toPyNum b with
  | some x, some y => .ok (x - y)
  | _, _ => .error .typeError

/-- Whitespace stripped by Python `str.strip()` and matched by the regex
class `\s` (ASCII range). -/
def isPyWs (c : Char) : Bool :=
  c == ' ' || c == '\t' || c == '\n' || c == '\r' || c == '\x0b' || c == '\x0c'

/-- Whitespace accepted by the JSON grammar (`json.loads`). -/
def isJsonWs (c : Char) : Bool :=
  c == ' ' || c == '\t' || c == '\n' || c == '\r'

/-- Python `str.strip()` over the character list of a string. -/
def pyStrip (l : List Char) : List Char :=
  ((l.dropWhile isPyWs).reverse.dropWhile isPyWs).reverse

/-- Both ends of a list trimmed of JSON whitespace; `json.loads` accepts
exactly the strings whose trimmed form is one complete JSON value. -/
def trimJsonWs (l : List Char) : List Char :=
  ((l.dropWhile isJsonWs).reverse.dropWhile isJsonWs).reverse

/-- One pass of `re.sub(tok + r'\s*', '', text)` for a literal token `tok`
of length `n` (the two code-fence substitutions in `analyze_with_groq` use
the literal tokens "```json" and "```"): scan left to right, and at each
match drop the token together with the whitespace following it.  Fuel is
the input length; every step consumes at least one character. -/
def stripFenceGo (tok : List Char) (n : Nat) : Nat → List Char → List Char
  | _, [] => []
  | 0, l => l
  | fuel + 1, c :: cs =>
    if tok.isPrefixOf (c :: cs) then
      stripFenceGo tok n fuel (((c :: cs).drop n).dropWhile isPyWs)
    else
      c :: stripFenceGo tok n fuel cs

/-- `re.sub(r'```json\s*', '', text)` from `analyze_with_groq`. -/
def stripJsonFence (l : List Char) : List Char :=
  stripFenceGo "```json".toList 7 l.length l

/-- `re.sub(r'```\s*', '', text)` from `analyze_with_groq` (applied after
`stripJsonFence`, so no "```json" occurrences remain). -/
def stripBackticks (l : List Char) : List Char :=
  stripFenceGo "```".toList 3 l.length l

/-- `re.search(r'\{.*\}', text, re.DOTALL)`: with a greedy dot matching
newlines, the leftmost match runs from the first brace-open to the last
brace-close of the text, provided the close comes after the open. -/
def extractBrace (l : List Char) : Option (List Char) :=
  let afterFirst := l.dropWhile (fun c => !(c == '{'))
  let chopped := (afterFirst.reverse.dropWhile (fun c => !(c == '}'))).reverse
  if 2 ≤ chopped.length then some chopped else none

/-- Value of a (non-empty) digit string. -/
def digitsVal (ds : List Char) : Nat :=
  ds.foldl (fun a c => a * 10 + (c.toNat - 48)) 0

/-- Hexadecimal digit value, for `\uXXXX` string escapes. -/
def hexVal (c : Char) : Option Nat :=
  if c.isDigit then some (c.toNat - 48)
  else if 'a' ≤ c ∧ c ≤ 'f' then some (c.toNat - 87)
  else if 'A' ≤ c ∧ c ≤ 'F' then some (c.toNat - 55)
  else none

/-- Single-character JSON string escapes. -/
def escChar : Char → Option Char
  | '"' => some '"'
  | '\\' => some '\\'
  | '/' => some '/'
  | 'b' => some (Char.ofNat 8)
  | 'f' => some (Char.ofNat 12)
  | 'n' => some '\n'
  | 'r' => some '\r'
  | 't' => some '\t'
  | _ => none

/-- Body of a JSON string after the opening quote: returns the decoded
characters and the remainder after the closing quote.  Raw control
characters are rejected (strict mode of `json.loads`); `\uXXXX` escapes
decode to the character of that code point. -/
def strBody : Nat → List Char → Option (List Char × List Char)
  | 0, _ => none
  | _ + 1, [] => none
  | fuel + 1, c :: cs =>
    if c == '"' then some ([], cs)
    else if c == '\\' then
      match cs with
      | [] => none
      | 'u' :: h1 :: h2 :: h3 :: h4 :: rest =>
        match hexVal h1, hexVal h2, hexVal h3, hexVal h4 with
        | some a, some b, some c2, some d =>
          match strBody fuel rest with
          | some (acc, r) => some (Char.ofNat (((a * 16 + b) * 16 + c2) * 16 + d) :: acc, r)
          | none => none
        | _, _, _, _ => none
      | 'u' :: _ => none
      | e :: rest =>
        match escChar e with
        | some ec =>
          match strBody fuel rest with
          | some (acc, r) => some (ec :: acc, r)
          | none => none
        | none => none
    else if c.toNat < 32 then none
    else
      match strBody fuel cs with
      | some (acc, r) => some (c :: acc, r)
      | none => none

/-- Exponent suffix of a JSON numeral (after the `e`/`E` marker). -/
def parseExpTail (neg : Bool) (mant : ℚ) (l : List Char) : Option (ℚ × List Char) :=
  let (eneg, l2) :=
    match l with
    | '+' :: rr => (false, rr)
    | '-' :: rr => (true, rr)
    | _ => (false, l)
  let ed := l2.takeWhile Char.isDigit
  if ed.isEmpty then none
  else
    let e := digitsVal ed
    let v := if eneg then mant / (10 : ℚ) ^ e else mant * (10 : ℚ) ^ e
    some ((if neg then -v else v), l2.dropWhile Char.isDigit)

/-- Optional exponent part of a JSON numeral. -/
def parseNumExp (neg : Bool) (mant : ℚ) (l : List Char) : Option (ℚ × List Char) :=
  match l with
  | 'e' :: r => parseExpTail neg mant r
  | 'E' :: r => parseExpTail neg mant r
  | _ => some ((if neg then -mant else mant), l)

/-- Optional fraction part of a JSON numeral. -/
def parseNumFrac (neg : Bool) (ip : Nat) (l : List Char) : Option (ℚ × List Char) :=
  match l with
  | '.' :: r =>
    let fd := r.takeWhile Char.isDigit
    if fd.isEmpty then none
    else
      parseNumExp neg ((ip : ℚ) + (digitsVal fd : ℚ) / (10 : ℚ) ^ fd.length)
        (r.dropWhile Char.isDigit)
  | _ => parseNumExp neg (ip : ℚ) l

/-- JSON numeral: optional minus, integer part without leading zeros,
optional fraction, optional exponent. -/
def parseNum (l : List Char) : Option (ℚ × List Char) :=
  let (neg, l1) :=
    match l with
    | '-' :: r => (true, r)
    | _ => (false, l)
  match l1 with
  | [] => none
  | c :: rest =>
    if c == '0' then parseNumFrac neg 0 rest
    else if c.isDigit then
      parseNumFrac neg (digitsVal (l1.takeWhile Char.isDigit)) (l1.dropWhile Char.isDigit)
    else none

mutual

/-- Recursive-descent JSON value, faithful to the grammar accepted by
`json.loads`.  Fuel bounds the call depth; two fuel units per input
character always suffice. -/
def parseValue : Nat → List Char → Option (Json × List Char)
  | 0, _ => none
  | fuel + 1, l =>
    match l with
    | [] => none
    | '"' :: cs =>
      (match strBody cs.length cs with
       | some (chars, r) => some (.str (String.mk chars), r)
       | none => none)
    | '{' :: cs =>
      (match cs.dropWhile isJsonWs with
       | '}' :: r => some (.obj [], r)
       | l1 => parseMembers fuel l1 [])
    | '[' :: cs =>
      (match cs.dropWhile isJsonWs with
       | ']' :: r => some (.arr [], r)
       | l1 => parseElems fuel l1 [])
    | l =>
      if "true".toList.isPrefixOf l then some (.bool true, l.drop 4)
      else if "false".toList.isPrefixOf l then some (.bool false, l.drop 5)
      else if "null".toList.isPrefixOf l then some (.null, l.drop 4)
      else
        match parseNum l with
        | some (q, r) => some (.num q, r)
        | none => none

/-- Members of a JSON object after the opening brace (non-empty case). -/
def parseMembers : Nat → List Char → List (String × Json) → Option (Json × List Char)
  | 0, _, _ => none
  | fuel + 1, l, acc =>
    match l with
    | '"' :: cs =>
      (match strBody cs.length cs with
       | some (kchars, r1) =>
         (match r1.dropWhile isJsonWs with
          | ':' :: r3 =>
            (match parseValue fuel (r3.dropWhile isJsonWs) with
             | some (v, r4) =>
               (match r4.dropWhile isJsonWs with
                | ',' :: r6 => parseMembers fuel (r6.dropWhile isJsonWs) (objInsert acc (String.mk kchars) v)
                | '}' :: r6 => some (.obj (objInsert acc (String.mk kchars) v), r6)
                | _ => none)
             | none => none)
          | _ => none)
       | none => none)
    | _ => none

/-- Elements of a JSON array after the opening bracket (non-empty case). -/
def parseElems : Nat → List Char → List Json → Option (Json × List Char)
  | 0, _, _ => none
  | fuel + 1, l, acc =>
    match parseValue fuel l with
    | some (v, r) =>
      (match r.dropWhile isJsonWs with
       | ',' :: r2 => parseElems fuel (r2.dropWhile isJsonWs) (acc ++ [v])
       | ']' :: r2 => some (.arr (acc ++ [v]), r2)
       | _ => none)
    | none => none

end

/-- One complete JSON value, allowing trailing JSON whitespace only. -/
def jsonCore (cs : List Char) : Option Json :=
  match parseValue (2 * cs.length + 4) cs with
  | some (v, rest) => if (rest.dropWhile isJsonWs).isEmpty then some v else none
  | none => none

/-- `json.loads` over a character list: leading and trailing JSON
whitespace is immaterial, and the remainder must be exactly one value
(anything further is Python's "Extra data" error, here `none`). -/
def jsonLoadsL (cs : List Char) : Option Json :=
  jsonCore (trimJsonWs cs)

/-- `json.loads` on a string: `some` the decoded value, `none` when a
`json.JSONDecodeError` is raised. -/
def jsonLoads (s : String) : Option Json :=
  jsonLoadsL s.toList

/-- The response text after `response_text.strip()` and the two code-fence
substitutions of `analyze_with_groq` (lines 172-174). -/
def stripResponse (s : String) : List Char :=
  stripBackticks (stripJsonFence (pyStrip s.toList))

/-- The direct parse attempt `json.loads(response_text)` (line 177). -/
def directParse (s : String) : Option Json :=
  jsonLoadsL (stripResponse s)

/-- The fallback span `re.search(r'\{.*\}', response_text, re.DOTALL)`
(line 179). -/
def fallbackSpan (s : String) : Option (List Char) :=
  extractBrace (stripResponse s)

/-- Outcome of the response-parsing block of `analyze_with_groq`:
`ok v` is a successful parse returned to the caller; `couldNotParse` is the
dictionary `{"error": "Could not parse response"}` returned when no
brace-delimited span exists; `analysisFailed` is the path where
`json.loads(json_match.group())` raises inside the inner `except` handler,
so the exception escapes to the *outer* handler and the function returns a
`{"error": "Groq analysis failed: ..."}` dictionary instead. -/
inductive GroqOutcome where
  | ok (v : Json)
  | couldNotParse
  | analysisFailed

/-- Response parsing of `analyze_with_groq`, lines 172-182, including the
escape of a second `json.loads` failure to the outer exception handler. -/
def parseGroqResponse (s : String) : GroqOutcome :=
  match directParse s with
  | some v => .ok v
  | none =>
    match fallbackSpan s with
    | some span =>
      match jsonLoadsL span with
      | some v => .ok v
      | none => .analysisFailed
    | none => .couldNotParse

/-- The uniform error dictionary shape `{"error": msg}`. -/
def errObj (msg : String) : Json :=
  Json.obj [("error", Json.str msg)]

/-- Modelled from the spec: the message text of the `json.JSONDecodeError`
raised by the failing second parse; its exact wording comes from Python's
json library (absent from this repository) and is abstracted here. -/
def jsonDecodeErrText : String := "Expecting value"

/-- `analyze_with_groq` at the response boundary: the argument is the chat
completion outcome — `.error e` models any exception out of the request
(caught by the outer handler, line 184), `.ok text` the returned message
content.  The prompt construction and the network call itself are outside
the model. -/
def analyze_with_groq (resp : Except String String) : Json :=
  match resp with
  | .error e => errObj ("Groq analysis failed: " ++ e)
  | .ok text =>
    match parseGroqResponse text with
    | .ok v => v
    | .couldNotParse => errObj "Could not parse response"
    | .analysisFailed => errObj ("Groq analysis failed: " ++ jsonDecodeErrText)

/-- Python `split('/')` over a character list: explicit-separator
semantics, so the empty input yields one empty segment and consecutive
separators yield empty segments. -/
def splitSlashGo (acc : List Char) : List Char → List (List Char)
  | [] => [acc.reverse]
  | c :: cs => if c == '/' then acc.reverse :: splitSlashGo [] cs else splitSlashGo (c :: acc) cs

/-- Python `s.split('/')`. -/
def pySplitSlash (s : String) : List String :=
  (splitSlashGo [] s.toList).map String.mk

/-- Python `s.rstrip('/')`. -/
def pyRstripSlash (s : String) : String :=
  String.mk ((s.toList.reverse.dropWhile (fun c => c == '/')).reverse)

/-- `repo_url.rstrip('/')` followed by `.split('/')`: the URL-parsing
prefix of `fetch_repo_data` (lines 19-24).  On fewer than two segments the
function returns the invalid-URL error dictionary; otherwise
`parts[-2], parts[-1]` become owner and repo and the (unmodelled) network
phase begins. -/
def fetch_repo_data_parse (repoUrl : String) : Except Json (String × String) :=
  let parts := pySplitSlash (pyRstripSlash repoUrl)
  if parts.length < 2 then .error (errObj "Invalid GitHub URL")
  else .ok (parts.getD (parts.length - 2) "", parts.getLastD "")

/-- Result record of `analyze_commit_patterns` (its keys are always the
same four, so the dictionary is given a typed shape). -/
structure CommitResult where
  total_commits : Nat
  red_flags : List String
  commit_messages : List String
  pattern_score : Nat
deriving DecidableEq

/-- The fixed no-commit-data result (lines 80-85). -/
def noCommitData : CommitResult :=
  ⟨0, ["No commit data available"], [], 20⟩

/-- `commit.get('commit', {}).get('message', '')` (line 91).  In Python a
non-string value bound to `message` travels onward and then faults inside
the pattern checks (no `.lower`/`len`/indexing as used there); the model
condenses that to a fault at extraction, which yields the same
success/fault outcome for the whole heuristic. -/
def getCommitMessage (c : Json) : Except PyFault String :=
  match pyGet c "commit" (Json.obj []) with
  | .error e => .error e
  | .ok inner =>
    match pyGet inner "message" (Json.str "") with
    | .error e => .error e
    | .ok (.str s) => .ok s
    | .ok _ => .error .typeError

/-- The message-collection loop of `analyze_commit_patterns` (lines 90-92). -/
def extractMessages : List Json → Except PyFault (List String)
  | [] => .ok []
  | c :: cs =>
    match getCommitMessage c with
    | .ok m =>
      (match extractMessages cs with
       | .ok rest => .ok (m :: rest)
       | .error e => .error e)
    | .error e => .error e

/-- Python `str.lower()` (ASCII model). -/
def pyLower (s : String) : String := String.mk (s.toList.map Char.toLower)

/-- The generic-word list of line 104. -/
def genericWords : List String :=
  ["update", "fix", "initial commit", "first commit", "changes"]

/-- A "perfect" commit message: longer than 50 characters, starting with an
uppercase letter and containing a period (lines 96-97; the `msg[0]` access
is guarded by the length test, hence total here). -/
def isPerfectMsg (m : String) : Bool :=
  decide (50 < m.length)
    && (match m.toList with | c :: _ => c.isUpper | [] => false)
    && m.toList.contains '.'

/-- Uniform-grammar check (lines 95-99): the fraction of perfect messages
exceeds 0.8. -/
def perfectFlagged (msgs : List String) : Bool :=
  decide (0 < msgs.length)
    && decide (((msgs.countP isPerfectMsg : ℚ) / (msgs.length : ℚ)) > 0.8)

/-- Case-insensitive generic-word containment for one message (line 107). -/
def hasGenericWord (m : String) : Bool :=
  genericWords.any (fun w => substrIn w.toList (pyLower m).toList)

/-- Generic-message check (lines 105-109): the fraction of messages
containing a generic word exceeds 0.6. -/
def genericFlagged (msgs : List String) : Bool :=
  decide (0 < msgs.length)
    && decide (((msgs.countP hasGenericWord : ℚ) / (msgs.length : ℚ)) > 0.6)

/-- The flag list assembled by the three pattern checks of
`analyze_commit_patterns`, in source order (lines 94-109): uniform
grammar, too-few commits, generic-message overrepresentation. -/
def commitRedFlags (n : Nat) (msgs : List String) : List String :=
  (if perfectFlagged msgs then ["Most commits have perfect grammar (AI-generated?)"] else [])
    ++ (if n < 5 then ["Very few commits (< 5)"] else [])
    ++ (if genericFlagged msgs then ["Over 60% generic commit messages"] else [])

/-- `analyze_commit_patterns` (lines 77-116) on an already-iterated commit
list: empty input short-circuits to `noCommitData`; otherwise the three
checks contribute their flags in source order and the penalty is fifteen
per flag. -/
def analyze_commit_patterns (commits : List Json) : Except PyFault CommitResult :=
  if commits.isEmpty then .ok noCommitData
  else
    match extractMessages commits with
    | .error e => .error e
    | .ok msgs =>
      .ok ⟨commits.length, commitRedFlags commits.length msgs, msgs.take 10,
        (commitRedFlags commits.length msgs).length * 15⟩

/-- `analyze_commit_patterns` on an arbitrary value, as called from the
pipeline: `if not commits` is Python truthiness, and iterating a
non-iterable faults. -/
def analyzeCommitPatternsPy (j : Json) : Except PyFault CommitResult :=
  if pyTruthy j then do
    let xs ← pyToList j
    analyze_commit_patterns xs
  else .ok noCommitData

/-- The category/risk/color ladder of `calculate_final_score`
(lines 194-209), evaluated high-to-low on the clamped score. -/
def scoreBands (finalScore : ℚ) : String × String × String :=
  if finalScore ≥ 75 then ("✅ AUTHENTIC", "Low", "green")
  else if finalScore ≥ 50 then ("⚠️ SUSPICIOUS", "Medium", "yellow")
  else if finalScore ≥ 25 then ("🚨 LIKELY PADDED", "High", "orange")
  else ("💀 FAKE/COPIED", "Critical", "red")

/-- Round-half-to-even on an exact rational. -/
def roundHalfEven (x : ℚ) : ℤ :=
  let f := ⌊x⌋
  let r := x - (f : ℚ)
  if r < 1 / 2 then f
  else if 1 / 2 < r then f + 1
  else if f % 2 = 0 then f else f + 1

/-- Python `round(x, 1)` over the exact-rational model: on integers it is
the identity (the analyzer's scores are integral in every well-formed run;
binary-float artifacts of CPython rounding are outside the model). -/
def pyRound1 (q : ℚ) : ℚ :=
  (roundHalfEven (q * 10) : ℚ) / 10

/-- `calculate_final_score` (lines 187-227): defaulting reads of the model
score and heuristic penalty, subtraction, clamping to [0, 100], banding,
flag-list concatenation in priority order truncated to ten, and the fused
result dictionary.  Present-but-ill-shaped fields fault exactly where
CPython would (`TypeError` on the subtraction, `AttributeError` on `.get`
of a non-dict, `TypeError` on extending from a non-iterable). -/
def calculate_final_score (groq_analysis commit_analysis : Json) : Except PyFault Json := do
  let base ← pyGet groq_analysis "authenticity_score" (Json.num 50)
  let pen ← pyGet commit_analysis "pattern_score" (Json.num 0)
  let diff ← pySub base pen
  let fs := max 0 (min 100 diff)
  let bands := scoreBands fs
  let rf1 ← pyGet groq_analysis "red_flags" (Json.arr [])
  let l1 ← pyToList rf1
  let rf2 ← pyGet groq_analysis "ai_indicators" (Json.arr [])
  let l2 ← pyToList rf2
  let rf3 ← pyGet commit_analysis "red_flags" (Json.arr [])
  let l3 ← pyToList rf3
  let allFlags := (l1 ++ l2 ++ l3).take 10
  let aig ← pyGet groq_analysis "ai_generated_score" (Json.num 0)
  let tc ← pyGet groq_analysis "technical_complexity" (Json.num 5)
  let hr ← pyGet groq_analysis "hiring_recommendation" (Json.str "")
  .ok (Json.obj
    [("authenticity_score", Json.num (pyRound1 fs)),
     ("category", Json.str bands.1),
     ("risk_level", Json.str bands.2.1),
     ("color", Json.str bands.2.2),
     ("ai_generated_score", aig),
     ("technical_complexity", tc),
     ("red_flags", Json.arr allFlags),
     ("hiring_recommendation", hr),
     ("groq_analysis", groq_analysis),
     ("commit_analysis", commit_analysis)])

/-- The `CommitResult` record as the dictionary `analyze_commit_patterns`
actually returns to the pipeline. -/
def commitResultToJson (r : CommitResult) : Json :=
  Json.obj
    [("total_commits", Json.num r.total_commits),
     ("red_flags", Json.arr (r.red_flags.map Json.str)),
     ("commit_messages", Json.arr (r.commit_messages.map Json.str)),
     ("pattern_score", Json.num r.pattern_score)]

/-- Single-quote character, used by the Python `repr` of strings. -/
def pyQ : String := (Char.ofNat 39).toString

/-- Smallest `k` with `den ∣ 10 ^ k`, searched with fuel (denominators of
parsed JSON numerals are always of the form `2^a * 5^b`). -/
def findPow10Go (den : Nat) : Nat → Nat → Option Nat
  | _, 0 => none
  | k, fuel + 1 => if 10 ^ k % den == 0 then some k else findPow10Go den (k + 1) fuel

/-- Decimal rendering of a rational, as Python prints the corresponding
int (`den = 1`) or float (finite decimal). -/
def qRepr (q : ℚ) : String :=
  if q.den = 1 then toString q.num
  else
    match findPow10Go q.den 1 64 with
    | some k =>
      let scaled : ℤ := q.num * (((10 : ℕ) ^ k / q.den : ℕ) : ℤ)
      let digits := toString scaled.natAbs
      let padded :=
        if digits.length < k + 1 then
          String.mk (List.replicate (k + 1 - digits.length) '0') ++ digits
        else digits
      let ipart := String.mk (padded.toList.take (padded.length - k))
      let ftrim := ((padded.toList.drop (padded.length - k)).reverse.dropWhile (fun c => c == '0')).reverse
      (if q.num < 0 then "-" else "") ++ ipart ++ "." ++ (if ftrim.isEmpty then "0" else String.mk ftrim)
    | none => toString q.num ++ "/" ++ toString q.den

/-- Python `repr` of an analyzer value, fueled by nesting depth (CPython
itself aborts repr beyond the interpreter recursion limit, which the fuel
models; no analyzer value approaches it). -/
def pyReprF : Nat → Json → String
  | 0, _ => ""
  | _ + 1, .null => "None"
  | _ + 1, .bool true => "True"
  | _ + 1, .bool false => "False"
  | _ + 1, .num q => qRepr q
  | _ + 1, .str s => pyQ ++ s ++ pyQ
  | fuel + 1, .arr xs => "[" ++ String.intercalate ", " (xs.map (pyReprF fuel)) ++ "]"
  | fuel + 1, .obj kvs =>
    "\x7b" ++ String.intercalate ", "
      (kvs.map (fun kv => pyQ ++ kv.1 ++ pyQ ++ ": " ++ pyReprF fuel kv.2)) ++ "\x7d"

/-- Python `str()` as used by f-string interpolation: strings verbatim,
other values by `repr`-style rendering. -/
def pyStr : Json → String
  | .str s => s
  | j => pyReprF 1000 j

/-- The numbered red-flag lines of the report (`enumerate(..., 1)` loop,
lines 261-263). -/
def numberedFlags (i : Nat) : List Json → String
  | [] => ""
  | f :: fs => toString i ++ ". " ++ pyStr f ++ "\n" ++ numberedFlags (i + 1) fs

/-- `generate_report` (lines 229-289): the markdown template, with field
reads in the evaluation order of the f-strings.  Bracket accesses on
`final_analysis` raise `KeyError` when absent; `.get` reads on the nested
`groq_analysis` default. -/
def generate_report (repo_data final_analysis : Json) : Except PyFault String := do
  let name ← pyGet repo_data "name" Json.null
  let owner ← pyGet repo_data "owner" Json.null
  let repo ← pyGet repo_data "repo" Json.null
  let stars ← pyGet repo_data "stars" Json.null
  let score ← pyIndex final_analysis "authenticity_score"
  let category ← pyIndex final_analysis "category"
  let risk ← pyIndex final_analysis "risk_level"
  let aig ← pyIndex final_analysis "ai_generated_score"
  let tc ← pyIndex final_analysis "technical_complexity"
  let ga ← pyIndex final_analysis "groq_analysis"
  let rps ← pyGet ga "resume_padding_score" (Json.num 0)
  let flagsJ ← pyIndex final_analysis "red_flags"
  let nFlags ← pyLen flagsJ
  let head :=
    "# 🔍 GITHUB REPOSITORY ANALYSIS\n\n## Repository: " ++ pyStr name
      ++ "\n**URL:** https://github.com/" ++ pyStr owner ++ "/" ++ pyStr repo
      ++ "  \n**Stars:** ⭐ " ++ pyStr stars
      ++ "\n\n---\n\n## 🎯 AUTHENTICITY SCORE: " ++ pyStr score
      ++ "/100\n\n**Category:** " ++ pyStr category
      ++ "  \n**Risk Level:** " ++ pyStr risk
      ++ "\n\n---\n\n## 📊 KEY METRICS\n\n| Metric | Score |\n|--------|-------|\n| **AI-Generated Code** | "
      ++ pyStr aig ++ "/100 |\n| **Technical Complexity** | " ++ pyStr tc
      ++ "/10 |\n| **Resume Padding Risk** | " ++ pyStr rps
      ++ "/100 |\n\n---\n\n## 🚩 RED FLAGS (" ++ toString nFlags ++ ")\n\n"
  let flagsSection ←
    if pyTruthy flagsJ then do
      let fl ← pyToList flagsJ
      pure (numberedFlags 1 fl)
    else pure "*No major red flags detected*\n"
  let hr ← pyIndex final_analysis "hiring_recommendation"
  let ga2 ← pyIndex final_analysis "groq_analysis"
  let cr ← pyGet ga2 "complexity_reasoning" (Json.str "N/A")
  let ga3 ← pyIndex final_analysis "groq_analysis"
  let ar ← pyGet ga3 "authenticity_reasoning" (Json.str "N/A")
  let tail :=
    "\n---\n\n## 💡 HIRING RECOMMENDATION\n\n" ++ pyStr hr
      ++ "\n\n---\n\n## 🔬 DETAILED ANALYSIS\n\n### Technical Complexity\n" ++ pyStr cr
      ++ "\n\n### Authenticity Assessment\n" ++ pyStr ar
      ++ "\n\n---\n\n*Generated by GitHub Repo Scanner • Powered by Groq AI*\n"
  .ok (head ++ flagsSection ++ tail)

/-- Commit-heuristic stage of `analyze_repository` (line 303):
`analyze_commit_patterns(repo_data.get('commits', []))`. -/
def commitStage (repo_data : Json) : Except PyFault CommitResult := do
  let commitsJ ← pyGet repo_data "commits" (Json.arr [])
  analyzeCommitPatternsPy commitsJ

/-- `analyze_repository` (lines 291-321) after the fetch: `repo_data` is
the value `fetch_repo_data` returned (the network itself being outside the
model) and `modelResp` is the chat-completion outcome fed to
`analyze_with_groq`.  An `"error"` key in either the fetch result or the
model-stage result is returned to the caller unchanged; otherwise the run
fuses the scores, renders the report, and returns the composite result. -/
def analyze_repository (repo_data : Json) (modelResp : Except String String) :
    Except PyFault Json := do
  let e1 ← pyIn "error" repo_data
  if e1 then .ok repo_data
  else do
    let ca ← commitStage repo_data
    let groq := analyze_with_groq modelResp
    let e2 ← pyIn "error" groq
    if e2 then .ok groq
    else do
      let fa ← calculate_final_score groq (commitResultToJson ca)
      let rep ← generate_report repo_data fa
      .ok (Json.obj
        [("repo_data", repo_data),
         ("final_analysis", fa),
         ("report", Json.str rep)])

/-- A model assessment carrying only an integral authenticity score. -/
def mkGroqScore (a : ℤ) : Json :=
  Json.obj [("authenticity_score", Json.num (a : ℚ))]

/-- A commit-heuristic result carrying only an integral pattern score. -/
def mkPatternScore (p : ℤ) : Json :=
  Json.obj [("pattern_score", Json.num (p : ℚ))]

/-- The `authenticity_score` field of a fused result, when fusion
succeeded and the field is numeric. -/
def scoreOf (r : Except PyFault Json) : Option ℚ :=
  match r with
  | .ok (.obj kvs) =>
    (match lookupKey kvs "authenticity_score" with
     | some (.num q) => some q
     | _ => none)
  | _ => none

/-- The `category` field of a fused result. -/
def categoryOf (r : Except PyFault Json) : Option String :=
  match r with
  | .ok (.obj kvs) =>
    (match lookupKey kvs "category" with
     | some (.str s) => some s
     | _ => none)
  | _ => none

/-- The `red_flags` field of a fused result. -/
def flagsOf (r : Except PyFault Json) : Option (List Json) :=
  match r with
  | .ok (.obj kvs) =>
    (match lookupKey kvs "red_flags" with
     | some (.arr l) => some l
     | _ => none)
  | _ => none

/-- A well-formed GitHub commit entry with the given message, as the
commits endpoint returns it. -/
def mkCommit (m : String) : Json :=
  Json.obj [("commit", Json.obj [("message", Json.str m)])]

/-- Red flags of a commit-heuristic run (empty on a fault). -/
def commitFlags (commits : List Json) : List String :=
  match analyze_commit_patterns commits with
  | .ok r => r.red_flags
  | .error _ => []

/-- Ten commit messages of which exactly seven contain "fix" or "update". -/
def msgs7gen : List String :=
  ["fix bug", "fix typo", "update docs", "fix build", "update deps",
   "fix tests", "update readme", "add feature", "remove dead code", "improve layout"]

/-- Ten commit messages of which exactly six contain "fix" or "update". -/
def msgs6gen : List String :=
  ["fix bug", "fix typo", "update docs", "fix build", "update deps",
   "fix tests", "add feature", "remove dead code", "improve layout", "polish ui"]

/-- A brace-delimited JSON-object text: an opening brace, a body, a closing
brace. -/
def jTok (mid : List Char) : List Char := '\x7b' :: mid ++ ['\x7d']

/-- The same text wrapped in a markdown code fence with a json language
tag, as chat models often return it. -/
def fenceWrap (mid : List Char) : String :=
  String.mk ("```json\n".toList ++ jTok mid ++ "\n```".toList)

theorem pyRound1_intCast (n : ℤ) : pyRound1 ((n : ℚ)) = (n : ℚ) := by
  unfold pyRound1 roundHalfEven
  have h : ((n : ℚ)) * 10 = ((n * 10 : ℤ) : ℚ) := by push_cast; ring
  rw [h, Int.floor_intCast]
  simp only [sub_self]
  rw [if_pos (by norm_num : (0 : ℚ) < 1 / 2)]
  push_cast
  ring

theorem clamp_intCast (a p : ℤ) :
    max 0 (min 100 ((a : ℚ) - (p : ℚ))) = ((max 0 (min 100 (a - p)) : ℤ) : ℚ) := by
  push_cast
  rfl

/-- Claim C1: for well-formed inputs, `calculate_final_score` computes the
final score as `clamp(a - p, 0, 100)` with `a` defaulting to 50 when the
model's `authenticity_score` is absent and `p` defaulting to 0 when the
heuristic `pattern_score` is absent; the result always lies in [0, 100],
and the clamp is active at both ends (10 − 45 ↦ 0, 95 − 0 ↦ 95). -/
theorem C1_final_score_is_clamped_difference :
    (∀ a p : ℤ,
        scoreOf (calculate_final_score (mkGroqScore a) (mkPatternScore p))
            = some (max 0 (min 100 ((a : ℚ) - (p : ℚ))))
          ∧ ∀ q : ℚ,
              scoreOf (calculate_final_score (mkGroqScore a) (mkPatternScore p)) = some q →
                0 ≤ q ∧ q ≤ 100)
      ∧ scoreOf (calculate_final_score (Json.obj []) (Json.obj [])) = some 50
      ∧ scoreOf (calculate_final_score (mkGroqScore 10) (mkPatternScore 45)) = some 0
      ∧ scoreOf (calculate_final_score (mkGroqScore 95) (mkPatternScore 0)) = some 95 := by
  have main : ∀ a p : ℤ,
      scoreOf (calculate_final_score (mkGroqScore a) (mkPatternScore p))
        = some (max 0 (min 100 ((a : ℚ) - (p : ℚ)))) := by
    intro a p
    have h0 :
        scoreOf (calculate_final_score (mkGroqScore a) (mkPatternScore p))
          = some (pyRound1 (max 0 (min 100 ((a : ℚ) - (p : ℚ))))) := rfl
    rw [h0, clamp_intCast, pyRound1_intCast]
  have hdefault :
      scoreOf (calculate_final_score (Json.obj []) (Json.obj [])) = some 50 := by
    have h0 :
        scoreOf (calculate_final_score (Json.obj []) (Json.obj []))
          = some (pyRound1 (max 0 (min 100 ((50 : ℚ) - (0 : ℚ))))) := rfl
    rw [h0, show max (0 : ℚ) (min 100 (50 - 0)) = ((50 : ℤ) : ℚ) by norm_num,
      pyRound1_intCast]
    norm_num
  refine ⟨?_, hdefault,
    by rw [main 10 45]; norm_num,
    by rw [main 95 0]; norm_num⟩
  intro a p
  refine ⟨main a p, ?_⟩
  intro q hq
  rw [main a p] at hq
  obtain rfl : max 0 (min 100 ((a : ℚ) - (p : ℚ))) = q := Option.some.inj hq
  constructor
  · exact le_max_left _ _
  · exact max_le (by norm_num) (min_le_left _ _)

theorem C1_witness : (0 : ℚ) ≤ 35 ∧ (35 : ℚ) ≤ 100 :=
  (C1_final_score_is_clamped_difference.1 65 30).2 35
    (by rw [(C1_final_score_is_clamped_difference.1 65 30).1]; norm_num)

/-- Claim C2 (amended): the four bands of `calculate_final_score` form a
strict, exhaustive, non-overlapping partition of [0, 100], evaluated
high-to-low with inclusive lower bounds; the category labels carry the
emoji prefixes of the source ("✅ AUTHENTIC" and so on) rather than the
bare words, and the boundary scores 75, 50 and 25 fall in the upper
band of each boundary. -/
theorem C2_bands_partition :
    (∀ s : ℚ, 0 ≤ s → s ≤ 100 →
        (75 ≤ s ∨ (50 ≤ s ∧ s < 75) ∨ (25 ≤ s ∧ s < 50) ∨ s < 25)
          ∧ (75 ≤ s → scoreBands s = ("✅ AUTHENTIC", "Low", "green"))
          ∧ (50 ≤ s → s < 75 → scoreBands s = ("⚠️ SUSPICIOUS", "Medium", "yellow"))
          ∧ (25 ≤ s → s < 50 → scoreBands s = ("🚨 LIKELY PADDED", "High", "orange"))
          ∧ (s < 25 → scoreBands s = ("💀 FAKE/COPIED", "Critical", "red")))
      ∧ (∀ a p : ℤ,
          categoryOf (calculate_final_score (mkGroqScore a) (mkPatternScore p))
            = some (scoreBands (max 0 (min 100 ((a : ℚ) - (p : ℚ))))).1)
      ∧ scoreBands 75 = ("✅ AUTHENTIC", "Low", "green")
      ∧ scoreBands 50 = ("⚠️ SUSPICIOUS", "Medium", "yellow")
      ∧ scoreBands 25 = ("🚨 LIKELY PADDED", "High", "orange") := by
  refine ⟨?_, fun a p => rfl, by rfl, by rfl, by rfl⟩
  intro s h0 h100
  constructor
  · rcases le_or_lt 75 s with h | h
    · exact Or.inl h
    rcases le_or_lt 50 s with h2 | h2
    · exact Or.inr (Or.inl ⟨h2, h⟩)
    rcases le_or_lt 25 s with h3 | h3
    · exact Or.inr (Or.inr (Or.inl ⟨h3, h2⟩))
    · exact Or.inr (Or.inr (Or.inr h3))
  refine ⟨?_, ?_, ?_, ?_⟩ <;> intros <;> unfold scoreBands <;> split_ifs <;>
    first
    | rfl
    | linarith

theorem C2_witness :
    scoreBands 80 = ("✅ AUTHENTIC", "Low", "green")
      ∧ scoreBands 60 = ("⚠️ SUSPICIOUS", "Medium", "yellow")
      ∧ scoreBands 30 = ("🚨 LIKELY PADDED", "High", "orange")
      ∧ scoreBands 10 = ("💀 FAKE/COPIED", "Critical", "red") :=
  ⟨((C2_bands_partition.1 80 (by norm_num) (by norm_num)).2.1 (by norm_num)),
   ((C2_bands_partition.1 60 (by norm_num) (by norm_num)).2.2.1 (by norm_num) (by norm_num)),
   ((C2_bands_partition.1 30 (by norm_num) (by norm_num)).2.2.2.1 (by norm_num) (by norm_num)),
   ((C2_bands_partition.1 10 (by norm_num) (by norm_num)).2.2.2.2 (by norm_num))⟩

/-- The claim's bare category string is not what the code assigns: the
source labels carry emoji prefixes, so a score of 80 is categorised
"✅ AUTHENTIC" and not "AUTHENTIC". -/
theorem C2_counterexample :
    (scoreBands 80).1 = "✅ AUTHENTIC" ∧ ¬(scoreBands 80).1 = "AUTHENTIC" := by
  constructor
  · rfl
  · intro h
    have h2 : "✅ AUTHENTIC" = "AUTHENTIC" := by
      have : (scoreBands 80).1 = "✅ AUTHENTIC" := rfl
      rw [← this, h]
    exact absurd h2 (by decide)

/-- Claim C3: `fetch_repo_data` parses owner and repo as the last two
`'/'`-separated segments after trimming trailing slashes, and returns the
invalid-URL error exactly when fewer than two segments remain. -/
theorem C3_url_parse :
    (∀ url : String,
        fetch_repo_data_parse url = .error (errObj "Invalid GitHub URL")
          ↔ (pySplitSlash (pyRstripSlash url)).length < 2)
      ∧ (∀ url : String, ∀ pre : List String, ∀ owner repo : String,
          pySplitSlash (pyRstripSlash url) = pre ++ [owner, repo] →
            fetch_repo_data_parse url = .ok (owner, repo))
      ∧ fetch_repo_data_parse "https://github.com/octocat/Hello-World"
          = .ok ("octocat", "Hello-World")
      ∧ fetch_repo_data_parse "octocat" = .error (errObj "Invalid GitHub URL") := by
  refine ⟨?_, ?_, by rfl, by rfl⟩
  · intro url
    unfold fetch_repo_data_parse
    by_cases h : (pySplitSlash (pyRstripSlash url)).length < 2
    · simp [h]
    · simp [h]
  · intro url pre owner repo h
    unfold fetch_repo_data_parse
    rw [h]
    have hlen : (pre ++ [owner, repo]).length = pre.length + 2 := by simp
    have h1 : (pre ++ [owner, repo]).getD ((pre ++ [owner, repo]).length - 2) "" = owner := by
      rw [hlen, show pre.length + 2 - 2 = pre.length by omega]
      rw [List.getD_eq_getElem?_getD, List.getElem?_append_right (le_refl _)]
      simp
    have h2 : (pre ++ [owner, repo]).getLastD "" = repo := by
      rw [show pre ++ [owner, repo] = (pre ++ [owner]) ++ [repo] by simp,
        List.getLastD_concat]
    rw [if_neg (by rw [hlen]; omega), h1, h2]

theorem C3_witness : fetch_repo_data_parse "a/b" = .ok ("a", "b") :=
  C3_url_parse.2.1 "a/b" [] "a" "b" (by rfl)

/-- Claim C5: the empty commit list short-circuits to total 0, the single
no-commit-data flag, no retained messages, and the fixed penalty 20,
bypassing the three pattern checks. -/
theorem C5_no_commit_data :
    analyze_commit_patterns [] = .ok ⟨0, ["No commit data available"], [], 20⟩ := rfl

/-- Claim C7: the fused red-flag list is the model red flags, then the
model AI indicators, then the commit-heuristic flags, truncated to the
first ten, a missing source list contributing nothing. -/
theorem C7_flag_concatenation :
    (∀ rf ai cf : List Json,
        flagsOf (calculate_final_score
            (Json.obj [("red_flags", Json.arr rf), ("ai_indicators", Json.arr ai)])
            (Json.obj [("red_flags", Json.arr cf)]))
          = some ((rf ++ ai ++ cf).take 10))
      ∧ flagsOf (calculate_final_score (Json.obj []) (Json.obj [])) = some [] := by
  exact ⟨fun rf ai cf => rfl, rfl⟩

/-- Claim C9: the report renderer is a pure function of its two inputs —
identical inputs yield byte-identical markdown (purity itself is witnessed
by `generate_report` being a total Lean function of exactly these two
values). -/
theorem C9_report_deterministic :
    ∀ rd fa rd2 fa2 : Json, rd = rd2 → fa = fa2 →
      generate_report rd fa = generate_report rd2 fa2 := by
  intro rd fa rd2 fa2 h1 h2
  rw [h1, h2]

theorem C9_witness :
    generate_report (Json.obj []) (Json.obj []) = generate_report (Json.obj []) (Json.obj []) :=
  C9_report_deterministic _ _ _ _ rfl rfl

theorem extractMessages_length :
    ∀ {commits : List Json} {msgs : List String},
      extractMessages commits = .ok msgs → msgs.length = commits.length := by
  intro commits
  induction commits with
  | nil =>
    intro msgs h
    cases h
    rfl
  | cons c cs ih =>
    intro msgs h
    unfold extractMessages at h
    cases hm : getCommitMessage c with
    | error e => rw [hm] at h; cases h
    | ok m =>
      rw [hm] at h
      cases hr : extractMessages cs with
      | error e => rw [hr] at h; cases h
      | ok rest =>
        rw [hr] at h
        cases h
        simp [ih hr]

theorem extractMessages_map_mkCommit (msgs : List String) :
    extractMessages (msgs.map mkCommit) = .ok msgs := by
  induction msgs with
  | nil => rfl
  | cons m ms ih =>
    show extractMessages (mkCommit m :: ms.map mkCommit) = .ok (m :: ms)
    unfold extractMessages
    rw [show getCommitMessage (mkCommit m) = .ok m from rfl, ih]

theorem commitFlags_msgs7gen :
    commitFlags (msgs7gen.map mkCommit) = ["Over 60% generic commit messages"] := by
  have hg : genericFlagged msgs7gen = true := by
    unfold genericFlagged
    rw [show msgs7gen.countP hasGenericWord = 7 from by decide,
      show msgs7gen.length = 10 from rfl]
    simp
    norm_num
  have hp : perfectFlagged msgs7gen = false := by
    unfold perfectFlagged
    rw [show msgs7gen.countP isPerfectMsg = 0 from by decide,
      show msgs7gen.length = 10 from rfl]
    simp
    norm_num
  have hstep : analyze_commit_patterns (msgs7gen.map mkCommit)
      = .ok ⟨10, commitRedFlags 10 msgs7gen, msgs7gen.take 10,
          (commitRedFlags 10 msgs7gen).length * 15⟩ := by
    unfold analyze_commit_patterns
    rw [if_neg (by decide), extractMessages_map_mkCommit]
    rfl
  unfold commitFlags
  rw [hstep]
  show commitRedFlags 10 msgs7gen = ["Over 60% generic commit messages"]
  unfold commitRedFlags
  simp [hp, hg]

theorem commitFlags_msgs6gen :
    commitFlags (msgs6gen.map mkCommit) = [] := by
  have hg : genericFlagged msgs6gen = false := by
    unfold genericFlagged
    rw [show msgs6gen.countP hasGenericWord = 6 from by decide,
      show msgs6gen.length = 10 from rfl]
    simp
    norm_num
  have hp : perfectFlagged msgs6gen = false := by
    unfold perfectFlagged
    rw [show msgs6gen.countP isPerfectMsg = 0 from by decide,
      show msgs6gen.length = 10 from rfl]
    simp
    norm_num
  have hstep : analyze_commit_patterns (msgs6gen.map mkCommit)
      = .ok ⟨10, commitRedFlags 10 msgs6gen, msgs6gen.take 10,
          (commitRedFlags 10 msgs6gen).length * 15⟩ := by
    unfold analyze_commit_patterns
    rw [if_neg (by decide), extractMessages_map_mkCommit]
    rfl
  unfold commitFlags
  rw [hstep]
  show commitRedFlags 10 msgs6gen = []
  unfold commitRedFlags
  simp [hp, hg]

/-- Claim C6: for every non-empty commit list the heuristic penalty is
(number of triggered flags) × 15, hence at most 45, and the generic-message
flag triggers exactly when the fraction of messages containing a generic
word strictly exceeds 0.6; seven generic messages out of ten trigger it,
exactly six out of ten do not. -/
theorem C6_penalty_and_generic_threshold :
    (∀ (commits : List Json) (msgs : List String), commits ≠ [] →
        extractMessages commits = .ok msgs →
          ∃ r, analyze_commit_patterns commits = .ok r
            ∧ r.pattern_score = r.red_flags.length * 15
            ∧ r.pattern_score ≤ 45
            ∧ ("Over 60% generic commit messages" ∈ r.red_flags
                 ↔ ((msgs.countP hasGenericWord : ℚ) / (msgs.length : ℚ)) > 0.6))
      ∧ "Over 60% generic commit messages" ∈ commitFlags (msgs7gen.map mkCommit)
      ∧ ¬("Over 60% generic commit messages" ∈ commitFlags (msgs6gen.map mkCommit)) := by
  refine ⟨?_, by rw [commitFlags_msgs7gen]; simp, by rw [commitFlags_msgs6gen]; simp⟩
  intro commits msgs hne hex
  have hempty : commits.isEmpty = false := by
    cases commits with
    | nil => exact absurd rfl hne
    | cons c cs => rfl
  have hpos : 0 < msgs.length := by
    rw [extractMessages_length hex]
    exact List.length_pos.mpr hne
  have hstep :
      analyze_commit_patterns commits
        = .ok ⟨commits.length, commitRedFlags commits.length msgs, msgs.take 10,
            (commitRedFlags commits.length msgs).length * 15⟩ := by
    unfold analyze_commit_patterns
    rw [if_neg (by simp [hempty]), hex]
  refine ⟨_, hstep, rfl, ?_, ?_⟩
  · show (commitRedFlags commits.length msgs).length * 15 ≤ 45
    unfold commitRedFlags
    split_ifs <;> decide
  · show ("Over 60% generic commit messages" ∈ commitRedFlags commits.length msgs)
      ↔ ((msgs.countP hasGenericWord : ℚ) / (msgs.length : ℚ)) > 0.6
    have hgen :
        (genericFlagged msgs = true)
          ↔ ((msgs.countP hasGenericWord : ℚ) / (msgs.length : ℚ)) > 0.6 := by
      unfold genericFlagged
      simp [hpos]
    rw [← hgen]
    unfold commitRedFlags
    split_ifs with h1 h2 h3 <;> simp_all

theorem C6_witness :
    ∃ r, analyze_commit_patterns [mkCommit "hello"] = .ok r
      ∧ r.pattern_score = r.red_flags.length * 15
      ∧ r.pattern_score ≤ 45
      ∧ ("Over 60% generic commit messages" ∈ r.red_flags
           ↔ (((["hello"] : List String).countP hasGenericWord : ℚ)
                / (((["hello"] : List String).length : ℕ) : ℚ)) > 0.6) :=
  C6_penalty_and_generic_threshold.1 [mkCommit "hello"] ["hello"]
    (List.cons_ne_nil _ _) (by rfl)

/-- The claim's tolerance of ill-shaped fields is not what the code does:
a *present but non-numeric* `authenticity_score` raises `TypeError` at the
subtraction of `calculate_final_score`, and a parsed model response that is
not an object (here a list) raises `AttributeError` at the first `.get` —
neither is replaced by a default. -/
theorem C8_counterexample :
    calculate_final_score (Json.obj [("authenticity_score", Json.str "high")]) (Json.obj [])
        = .error PyFault.typeError
      ∧ calculate_final_score (Json.arr []) (Json.obj []) = .error PyFault.attributeError :=
  ⟨rfl, rfl⟩

/-- Claim C8 (amended): error conditions detected by the pipeline are
returned as `{"error": msg}` dictionaries, never as faults — a fetch result
carrying an `"error"` key is returned unchanged, and a model transport
failure becomes the "Groq analysis failed" dictionary; score fusion and
report generation tolerate *absent* model fields by supplying defaults
(an empty model assessment still fuses to score 50 and renders a report),
but fields present with unexpected shape, or a parsed response that is not
an object, fault in score fusion rather than being defaulted. -/
theorem C8_error_dicts_and_absence_defaults :
    (∀ (repoErr : Json) (resp : Except String String),
        pyIn "error" repoErr = .ok true → analyze_repository repoErr resp = .ok repoErr)
      ∧ (∀ msg : String,
          analyze_with_groq (.error msg) = errObj ("Groq analysis failed: " ++ msg))
      ∧ (∃ fa, calculate_final_score (Json.obj []) (Json.obj []) = .ok fa
          ∧ scoreOf (calculate_final_score (Json.obj []) (Json.obj [])) = some 50
          ∧ ∃ rep, generate_report (Json.obj []) fa = .ok rep) := by
  refine ⟨?_, fun msg => rfl, ?_⟩
  · intro j resp h
    unfold analyze_repository
    rw [h]
    rfl
  · refine ⟨_, rfl, ?_, ⟨_, rfl⟩⟩
    have h0 :
        scoreOf (calculate_final_score (Json.obj []) (Json.obj []))
          = some (pyRound1 (max 0 (min 100 ((50 : ℚ) - (0 : ℚ))))) := rfl
    rw [h0, show max (0 : ℚ) (min 100 (50 - 0)) = ((50 : ℤ) : ℚ) by norm_num,
      pyRound1_intCast]
    norm_num

theorem C8_witness :
    analyze_repository (errObj "Repository not found") (.ok "irrelevant")
      = .ok (errObj "Repository not found") :=
  C8_error_dicts_and_absence_defaults.1 (errObj "Repository not found") (.ok "irrelevant") rfl

/-- Claim C10: the model stage fails exactly when its returned mapping has
an `"error"` key — a response parsing to an object that itself contains
`"error"` is returned as the run's terminal result (no fusion, no report),
exactly like a transport failure or an unparsable response. -/
theorem C10_error_key_decides_model_stage :
    ∀ rd : Json, pyIn "error" rd = .ok false →
      ∀ ca : CommitResult, commitStage rd = .ok ca →
        (∀ (text : String) (v : Json), parseGroqResponse text = .ok v →
            pyIn "error" v = .ok true → analyze_repository rd (.ok text) = .ok v)
          ∧ (∀ e : String,
              analyze_repository rd (.error e)
                = .ok (errObj ("Groq analysis failed: " ++ e)))
          ∧ (∀ text : String, parseGroqResponse text = .couldNotParse →
              analyze_repository rd (.ok text) = .ok (errObj "Could not parse response")) := by
  intro rd h1 ca hca
  refine ⟨?_, ?_, ?_⟩
  · intro text v hp hv
    have hg : analyze_with_groq (Except.ok text) = v := by
      simp only [analyze_with_groq, hp]
    unfold analyze_repository
    rw [h1, hca, hg]
    simp only [hv]
    rfl
  · intro e
    unfold analyze_repository
    rw [h1, hca]
    rfl
  · intro text hp
    have hg : analyze_with_groq (Except.ok text) = errObj "Could not parse response" := by
      simp only [analyze_with_groq, hp]
    unfold analyze_repository
    rw [h1, hca, hg]
    rfl

theorem C10_witness :
    analyze_repository (Json.obj [("commits", Json.arr [])])
        (.ok "\x7b\x22error\x22: \x22model refused\x22\x7d")
      = .ok (Json.obj [("error", Json.str "model refused")]) :=
  (C10_error_key_decides_model_stage (Json.obj [("commits", Json.arr [])]) rfl
      noCommitData rfl).1
    "\x7b\x22error\x22: \x22model refused\x22\x7d"
    (Json.obj [("error", Json.str "model refused")]) (by rfl) (by rfl)

theorem dropWhile_append_neg (p : Char → Bool) (l : List Char) (c : Char) (m : List Char)
    (hc : p c = false) :
    (l ++ c :: m).dropWhile p = l.dropWhile p ++ c :: m := by
  induction l with
  | nil => simp [List.dropWhile_cons, hc]
  | cons a as ih => cases hp : p a <;> simp [List.dropWhile_cons, hp, ih]

theorem dropWhile_append_all (p : Char → Bool) (l m : List Char)
    (h : ∀ c ∈ l, p c = true) :
    (l ++ m).dropWhile p = m.dropWhile p := by
  induction l with
  | nil => rfl
  | cons a as ih =>
    have ha : p a = true := h a (by simp)
    simp only [List.cons_append, List.dropWhile_cons, ha, if_true]
    exact ih (fun c hc => h c (by simp [hc]))

theorem pyStrip_no_trailing (l : List Char) (c : Char) (hc : isPyWs c = false) :
    pyStrip (l ++ [c]) = l.dropWhile isPyWs ++ [c] := by
  unfold pyStrip
  rw [dropWhile_append_neg isPyWs l c [] hc]
  simp [List.dropWhile_cons, hc]

theorem mem_pyStrip {l : List Char} {c : Char} (hc : c ∈ pyStrip l) : c ∈ l := by
  unfold pyStrip at hc
  rw [List.mem_reverse] at hc
  have h2 := (List.dropWhile_sublist (l := (l.dropWhile isPyWs).reverse) isPyWs).subset hc
  rw [List.mem_reverse] at h2
  exact (List.dropWhile_sublist isPyWs).subset h2

theorem stripGo_id (c0 : Char) (ts : List Char) (n : Nat) :
    ∀ (fuel : Nat) (l : List Char), (∀ c ∈ l, c ≠ c0) →
      stripFenceGo (c0 :: ts) n fuel l = l := by
  intro fuel
  induction fuel with
  | zero => intro l h; cases l <;> rfl
  | succ fuel ih =>
    intro l h
    cases l with
    | nil => rfl
    | cons a as =>
      have ha : a ≠ c0 := h a (by simp)
      have hpre : (c0 :: ts).isPrefixOf (a :: as) = false := by
        simp only [List.isPrefixOf, Bool.and_eq_false_iff]
        left
        exact beq_eq_false_iff_ne.mpr (fun h' => ha h'.symm)
      unfold stripFenceGo
      rw [if_neg (by simp [hpre])]
      rw [ih as (fun c hc => h c (by simp [hc]))]

theorem stripGo_append (c0 : Char) (ts : List Char) (n : Nat) :
    ∀ (l m : List Char) (fuel : Nat), (∀ c ∈ l, c ≠ c0) →
      stripFenceGo (c0 :: ts) n (l.length + fuel) (l ++ m)
        = l ++ stripFenceGo (c0 :: ts) n fuel m := by
  intro l
  induction l with
  | nil => intro m fuel h; simp
  | cons a as ih =>
    intro m fuel h
    have ha : a ≠ c0 := h a (by simp)
    have hpre : (c0 :: ts).isPrefixOf (a :: (as ++ m)) = false := by
      simp only [List.isPrefixOf, Bool.and_eq_false_iff]
      left
      exact beq_eq_false_iff_ne.mpr (fun h' => ha h'.symm)
    rw [show (a :: as).length + fuel = (as.length + fuel) + 1 from by simp; omega]
    show stripFenceGo (c0 :: ts) n ((as.length + fuel) + 1) (a :: (as ++ m))
      = (a :: as) ++ stripFenceGo (c0 :: ts) n fuel m
    rw [show stripFenceGo (c0 :: ts) n ((as.length + fuel) + 1) (a :: (as ++ m))
          = a :: stripFenceGo (c0 :: ts) n (as.length + fuel) (as ++ m) from by
        rw [stripFenceGo]
        rw [if_neg (by simp [hpre])]]
    rw [ih m fuel (fun c hc => h c (by simp [hc]))]
    rfl

theorem stripJsonFence_id (l : List Char) (h : ∀ c ∈ l, c ≠ Char.ofNat 96) :
    stripJsonFence l = l := by
  unfold stripJsonFence
  rw [show "```json".toList = Char.ofNat 96 :: "``json".toList from rfl]
  exact stripGo_id _ _ _ _ l h

theorem stripBackticks_id (l : List Char) (h : ∀ c ∈ l, c ≠ Char.ofNat 96) :
    stripBackticks l = l := by
  unfold stripBackticks
  rw [show "```".toList = Char.ofNat 96 :: "``".toList from rfl]
  exact stripGo_id _ _ _ _ l h

theorem pyStrip_id_of_ends (c1 : Char) (mid2 : List Char) (c2 : Char)
    (h1 : isPyWs c1 = false) (h2 : isPyWs c2 = false) :
    pyStrip (c1 :: mid2 ++ [c2]) = c1 :: mid2 ++ [c2] := by
  rw [show c1 :: mid2 ++ [c2] = (c1 :: mid2) ++ [c2] from rfl]
  rw [pyStrip_no_trailing (c1 :: mid2) c2 h2]
  rw [List.dropWhile_cons_of_neg (by simp [h1])]

theorem stripJsonFence_fence_head (rest : List Char) :
    stripJsonFence ("```json".toList ++ rest)
      = stripFenceGo "```json".toList 7 (rest.length + 6) (rest.dropWhile isPyWs) := by
  unfold stripJsonFence
  rw [show ("```json".toList ++ rest).length = (rest.length + 6) + 1 from by
    rw [List.length_append, show "```json".toList.length = 7 from rfl]; omega]
  rw [show "```json".toList ++ rest = Char.ofNat 96 :: ("``json".toList ++ rest) from rfl]
  rw [stripFenceGo.eq_def]
  dsimp only []
  rw [if_pos (by
    rw [show Char.ofNat 96 :: ("``json".toList ++ rest) = "```json".toList ++ rest from rfl]
    exact List.isPrefixOf_iff_prefix.mpr (List.prefix_append _ _))]
  rw [show List.drop 7 (Char.ofNat 96 :: ("``json".toList ++ rest)) = rest from rfl]

theorem stripResponse_jTok (mid : List Char) (hbt : ∀ c ∈ mid, c ≠ Char.ofNat 96) :
    stripResponse (String.mk (jTok mid)) = jTok mid := by
  have hmem : ∀ c ∈ jTok mid, c ≠ Char.ofNat 96 := by
    intro c hc
    rcases List.mem_cons.mp hc with h | h
    · subst h; decide
    · rcases List.mem_append.mp h with h2 | h2
      · exact hbt c h2
      · rw [List.mem_singleton] at h2; subst h2; decide
  unfold stripResponse
  rw [show (String.mk (jTok mid)).toList = jTok mid from rfl]
  rw [show pyStrip (jTok mid) = jTok mid from
    pyStrip_id_of_ends '\x7b' mid '\x7d' (by decide) (by decide)]
  rw [stripJsonFence_id _ hmem, stripBackticks_id _ hmem]

theorem jTok_no_backtick (mid : List Char) (hbt : ∀ c ∈ mid, c ≠ Char.ofNat 96) :
    ∀ c ∈ jTok mid, c ≠ Char.ofNat 96 := by
  intro c hc
  rcases List.mem_cons.mp hc with h | h
  · subst h; decide
  · rcases List.mem_append.mp h with h2 | h2
    · exact hbt c h2
    · rw [List.mem_singleton] at h2; subst h2; decide

theorem stripResponse_fenceWrap (mid : List Char) (hbt : ∀ c ∈ mid, c ≠ Char.ofNat 96) :
    stripResponse (fenceWrap mid) = jTok mid ++ ['\n'] := by
  unfold stripResponse fenceWrap
  rw [show (String.mk ("```json\n".toList ++ jTok mid ++ "\n```".toList)).toList
      = "```json\n".toList ++ jTok mid ++ "\n```".toList from rfl]
  have hstrip : pyStrip ("```json\n".toList ++ jTok mid ++ "\n```".toList)
      = "```json\n".toList ++ jTok mid ++ "\n```".toList := by
    have hsplit : "```json\n".toList ++ jTok mid ++ "\n```".toList
        = Char.ofNat 96 :: ("``json\n".toList ++ jTok mid ++ "\n``".toList) ++ [Char.ofNat 96] := by
      rw [show "```json\n".toList = Char.ofNat 96 :: "``json\n".toList from rfl,
        show "\n```".toList = "\n``".toList ++ [Char.ofNat 96] from rfl]
      simp
    rw [hsplit, pyStrip_id_of_ends _ _ _ (by decide) (by decide)]
  rw [hstrip]
  rw [show "```json\n".toList ++ jTok mid ++ "\n```".toList
      = "```json".toList ++ ('\n' :: (jTok mid ++ "\n```".toList)) from by
    rw [show "```json\n".toList = "```json".toList ++ ['\n'] from rfl]
    simp]
  rw [stripJsonFence_fence_head]
  have hdw : List.dropWhile isPyWs ('\n' :: (jTok mid ++ "\n```".toList))
      = jTok mid ++ "\n```".toList := by
    rw [List.dropWhile_cons_of_pos (by decide)]
    rw [show jTok mid ++ "\n```".toList = '\x7b' :: ((mid ++ ['\x7d']) ++ "\n```".toList) from by
      simp [jTok]]
    rw [List.dropWhile_cons_of_neg (by decide)]
  rw [hdw]
  rw [show ('\n' :: (jTok mid ++ "\n```".toList)).length + 6 = (jTok mid).length + 11 from by
    simp [jTok]]
  rw [show "```json".toList = Char.ofNat 96 :: "``json".toList from rfl]
  rw [stripGo_append (Char.ofNat 96) "``json".toList 7 (jTok mid) "\n```".toList 11
    (jTok_no_backtick mid hbt)]
  rw [show stripFenceGo (Char.ofNat 96 :: "``json".toList) 7 11 "\n```".toList
      = "\n```".toList from by decide]
  unfold stripBackticks
  rw [show (jTok mid ++ "\n```".toList).length = (jTok mid).length + 4 from by simp]
  rw [show "```".toList = Char.ofNat 96 :: "``".toList from rfl]
  rw [stripGo_append (Char.ofNat 96) "``".toList 3 (jTok mid) "\n```".toList 4
    (jTok_no_backtick mid hbt)]
  rw [show stripFenceGo (Char.ofNat 96 :: "``".toList) 3 4 "\n```".toList = ['\n'] from by decide]

theorem trimJsonWs_jTok_newline (mid : List Char) :
    trimJsonWs (jTok mid ++ ['\n']) = trimJsonWs (jTok mid) := by
  unfold trimJsonWs
  rw [show jTok mid ++ ['\n'] = '\x7b' :: ((mid ++ ['\x7d']) ++ ['\n']) from by simp [jTok]]
  rw [show jTok mid = '\x7b' :: (mid ++ ['\x7d']) from rfl]
  rw [List.dropWhile_cons_of_neg (by decide), List.dropWhile_cons_of_neg (by decide)]
  rw [show ('\x7b' :: ((mid ++ ['\x7d']) ++ ['\n'])).reverse
      = '\n' :: ('\x7b' :: (mid ++ ['\x7d'])).reverse from by simp]
  rw [List.dropWhile_cons_of_pos (by decide)]

theorem extractBrace_jTok_newline (mid : List Char) :
    extractBrace (jTok mid ++ ['\n']) = extractBrace (jTok mid) := by
  have h1 : (jTok mid ++ ['\n']).dropWhile (fun c => !(c == '\x7b')) = jTok mid ++ ['\n'] := by
    rw [show jTok mid ++ ['\n'] = '\x7b' :: ((mid ++ ['\x7d']) ++ ['\n']) from by simp [jTok]]
    exact List.dropWhile_cons_of_neg (by decide)
  have h2 : (jTok mid).dropWhile (fun c => !(c == '\x7b')) = jTok mid :=
    List.dropWhile_cons_of_neg (by decide)
  have h3 : (jTok mid ++ ['\n']).reverse.dropWhile (fun c => !(c == '\x7d'))
      = (jTok mid).reverse.dropWhile (fun c => !(c == '\x7d')) := by
    rw [show (jTok mid ++ ['\n']).reverse = '\n' :: (jTok mid).reverse from by simp]
    exact List.dropWhile_cons_of_pos (by decide)
  simp only [extractBrace]
  rw [h1, h2, h3]

theorem stripResponse_prose (prose mid : List Char)
    (hp : ∀ c ∈ prose, c ≠ '\x7b' ∧ c ≠ '\x7d' ∧ c ≠ Char.ofNat 96)
    (hbt : ∀ c ∈ mid, c ≠ Char.ofNat 96) :
    stripResponse (String.mk (prose ++ jTok mid))
      = prose.dropWhile isPyWs ++ jTok mid := by
  have hmem : ∀ c ∈ prose.dropWhile isPyWs ++ jTok mid, c ≠ Char.ofNat 96 := by
    intro c hc
    rcases List.mem_append.mp hc with h | h
    · exact (hp c ((List.dropWhile_sublist isPyWs).subset h)).2.2
    · exact jTok_no_backtick mid hbt c h
  unfold stripResponse
  rw [show (String.mk (prose ++ jTok mid)).toList = prose ++ jTok mid from rfl]
  have hstrip : pyStrip (prose ++ jTok mid) = prose.dropWhile isPyWs ++ jTok mid := by
    rw [show prose ++ jTok mid = (prose ++ '\x7b' :: mid) ++ ['\x7d'] from by simp [jTok]]
    rw [pyStrip_no_trailing _ _ (by decide)]
    rw [dropWhile_append_neg isPyWs prose '\x7b' mid (by decide)]
    simp [jTok]
  rw [hstrip, stripJsonFence_id _ hmem, stripBackticks_id _ hmem]

theorem extractBrace_prose (prose2 mid : List Char)
    (hp : ∀ c ∈ prose2, c ≠ '\x7b') :
    extractBrace (prose2 ++ jTok mid) = some (jTok mid) := by
  have h1 : (prose2 ++ jTok mid).dropWhile (fun c => !(c == '\x7b')) = jTok mid := by
    rw [show prose2 ++ jTok mid = prose2 ++ '\x7b' :: (mid ++ ['\x7d']) from rfl]
    rw [dropWhile_append_neg _ prose2 '\x7b' (mid ++ ['\x7d'])
      (by simp)]
    rw [show List.dropWhile (fun c => !(c == '\x7b')) prose2 = [] from by
      have := dropWhile_append_all (fun c => !(c == '\x7b')) prose2 []
        (fun c hc => by simp [hp c hc])
      simpa using this]
    rfl
  have h2 : (jTok mid).reverse.dropWhile (fun c => !(c == '\x7d'))
      = '\x7d' :: (mid.reverse ++ ['\x7b']) := by
    rw [show (jTok mid).reverse = '\x7d' :: (mid.reverse ++ ['\x7b']) from by simp [jTok]]
    exact List.dropWhile_cons_of_neg (by decide)
  simp only [extractBrace]
  rw [h1, h2]
  rw [if_pos (by simp)]
  congr 1
  rw [show ('\x7d' :: (mid.reverse ++ ['\x7b'])).reverse
      = '\x7b' :: (mid ++ ['\x7d']) from by simp]
  rfl

theorem stripResponse_plain (s : String) (hbt : ∀ c ∈ s.toList, c ≠ Char.ofNat 96) :
    stripResponse s = pyStrip s.toList := by
  unfold stripResponse
  rw [stripJsonFence_id _ (fun c hc => hbt c (mem_pyStrip hc)),
    stripBackticks_id _ (fun c hc => hbt c (mem_pyStrip hc))]

theorem extractBrace_none (l : List Char) (h : ∀ c ∈ l, c ≠ '\x7b') :
    extractBrace l = none := by
  have h1 : l.dropWhile (fun c => !(c == '\x7b')) = [] := by
    have := dropWhile_append_all (fun c => !(c == '\x7b')) l []
      (fun c hc => by simp [h c hc])
    simpa using this
  simp only [extractBrace]
  rw [h1]
  rfl

/-- Claim C4 (amended): the response parser first strips code-fence
markers, so a fenced JSON object parses exactly like the unwrapped text;
on direct-parse failure it retries on the brace-delimited span, so leading
prose followed by a JSON object yields that object; when no
brace-delimited content exists it returns the "Could not parse response"
condition; but when the extracted span itself fails to parse, the second
`json.loads` raises inside the inner handler and the run surfaces the
generic "Groq analysis failed" condition instead. -/
theorem C4_response_parsing :
    (∀ mid : List Char, (∀ c ∈ mid, c ≠ Char.ofNat 96) →
        parseGroqResponse (fenceWrap mid) = parseGroqResponse (String.mk (jTok mid)))
      ∧ (∀ (prose mid : List Char) (v : Json),
          (∀ c ∈ prose, c ≠ '\x7b' ∧ c ≠ '\x7d' ∧ c ≠ Char.ofNat 96) →
          (∀ c ∈ mid, c ≠ Char.ofNat 96) →
          directParse (String.mk (prose ++ jTok mid)) = none →
          jsonLoadsL (jTok mid) = some v →
          parseGroqResponse (String.mk (prose ++ jTok mid)) = .ok v)
      ∧ (∀ s : String, (∀ c ∈ s.toList, c ≠ Char.ofNat 96) →
          (∀ c ∈ s.toList, c ≠ '\x7b') →
          directParse s = none →
          parseGroqResponse s = .couldNotParse)
      ∧ (∀ (s : String) (sp : List Char), directParse s = none →
          fallbackSpan s = some sp → jsonLoadsL sp = none →
          parseGroqResponse s = .analysisFailed) := by
  refine ⟨?_, ?_, ?_, ?_⟩
  · intro mid hbt
    unfold parseGroqResponse directParse fallbackSpan
    rw [stripResponse_fenceWrap mid hbt, stripResponse_jTok mid hbt]
    rw [show jsonLoadsL (jTok mid ++ ['\n']) = jsonLoadsL (jTok mid) from by
      unfold jsonLoadsL
      rw [trimJsonWs_jTok_newline]]
    rw [extractBrace_jTok_newline]
  · intro prose mid v hp hbt hdp hjl
    unfold parseGroqResponse
    rw [hdp]
    unfold fallbackSpan
    rw [stripResponse_prose prose mid hp hbt]
    rw [extractBrace_prose _ mid
      (fun c hc => (hp c ((List.dropWhile_sublist isPyWs).subset hc)).1)]
    simp only [hjl]
  · intro s h1 h2 hdp
    unfold parseGroqResponse
    rw [hdp]
    unfold fallbackSpan
    rw [stripResponse_plain s h1]
    rw [extractBrace_none _ (fun c hc => h2 c (mem_pyStrip hc))]
  · intro s sp h1 h2 h3
    unfold parseGroqResponse
    rw [h1, h2]
    simp only [h3]

/-- The claim's repeated-failure clause is not what the code does when a
brace-delimited span exists but fails to parse: the input below has such a
span, and the run ends in the outer handler's "Groq analysis failed"
condition, not in "Could not parse response". -/
theorem C4_counterexample :
    parseGroqResponse "\x7bnot json\x7d" = GroqOutcome.analysisFailed
      ∧ parseGroqResponse "\x7bnot json\x7d" ≠ GroqOutcome.couldNotParse := by
  constructor
  · rfl
  · intro h
    rw [show parseGroqResponse "\x7bnot json\x7d" = GroqOutcome.analysisFailed from rfl] at h
    exact GroqOutcome.noConfusion h

theorem C4_witness :
    (parseGroqResponse (fenceWrap "\x22a\x22: 1".toList)
        = parseGroqResponse (String.mk (jTok "\x22a\x22: 1".toList)))
      ∧ parseGroqResponse (String.mk ("Result: ".toList ++ jTok "\x22a\x22: 1".toList))
          = GroqOutcome.ok (Json.obj [("a", Json.num 1)])
      ∧ parseGroqResponse "no data" = GroqOutcome.couldNotParse
      ∧ parseGroqResponse "\x7bnot json\x7d" = GroqOutcome.analysisFailed :=
  ⟨C4_response_parsing.1 "\x22a\x22: 1".toList (by decide),
   C4_response_parsing.2.1 "Result: ".toList "\x22a\x22: 1".toList
     (Json.obj [("a", Json.num 1)]) (by decide) (by decide) (by rfl) (by rfl),
   C4_response_parsing.2.2.1 "no data" (by decide) (by decide) (by rfl),
   C4_response_parsing.2.2.2 "\x7bnot json\x7d" "\x7bnot json\x7d".toList
     (by rfl) (by rfl) (by rfl)⟩
